import Mathlib

/-!
Verification of the mesh slicing and geometry-extraction pipeline of the
VTK/Dash visualization application (`vtk_dash_app.py`, `create_example_xdmf.py`).

The Python code is shallowly embedded: datasets become explicit structures,
float arithmetic is modelled over `ℚ`, the stateful `VTKXDMFDashApp` object
becomes an `AppState` record threaded explicitly, and external VTK filters
(`vtkCutter`, `vtkDataSetSurfaceFilter`, `vtkImageDataGeometryFilter`,
`vtkElevationFilter`, the XDMF reader) are parameters of the embedded
functions, since their implementations live in the VTK library and not in this
repository.  Python object identity (`id(...)`), which the geometry cache
hashes, is modelled by an explicit `objId : Nat` field on datasets.
-/

namespace VTKApp

/-- Coordinate triple; Python floats are modelled as rationals. -/
abbrev Vec3 := ℚ × ℚ × ℚ

/-- Runtime class of a VTK data object, as tested by `IsA` in
`extract_geometry_data`. -/
inductive DatasetKind where
  | polyData
  | unstructuredGrid
  | imageData
deriving DecidableEq, Repr

/-- A VTK dataset as the pipeline sees it: an object identity (Python `id`),
a runtime kind, a point list, the polygon cells (`GetPolys`, each a list of
point indices), the active point scalars (`GetPointData().GetScalars()`),
and the named point/cell array names reported by the reader. -/
structure Dataset where
  objId : Nat
  kind : DatasetKind
  points : List Vec3
  polys : List (List Nat)
  pointScalars : Option (List ℚ)
  pointArrayNames : List String
  cellArrayNames : List String
deriving DecidableEq, Repr

/-- The geometry record built at the end of `extract_geometry_data`
(field names follow the Python dict keys). -/
structure GeometryData where
  vertices : List ℚ
  faces : List Nat
  colors : List ℚ
  vertex_count : Nat
  face_count : Nat
  opacity : ℚ
  wireframe : Bool
deriving DecidableEq, Repr

/-- The tuple hashed at the top of `extract_geometry_data`:
`(id(self.vtk_data), self.current_opacity, self.wireframe_mode,
self.current_array, self.slicing_enabled, self.slice_position,
tuple(self.slice_normal), self.multiple_slices, self.num_slices)`.
The source tuple has no `slice_spacing` component, and this record
deliberately mirrors that omission.  Python's `hash` of the tuple is
idealized as the tuple itself (hash collisions are not modelled). -/
structure CacheKey where
  dataId : Nat
  opacity : ℚ
  wireframe : Bool
  currentArray : Option String
  slicingEnabled : Bool
  slicePosition : ℚ
  sliceNormal : Vec3
  multipleSlices : Bool
  numSlices : Nat
deriving DecidableEq, Repr

/-- The mutable state of `VTKXDMFDashApp` relevant to the slicing and
extraction pipeline (render-only members such as the mapper and actor are
not modelled). -/
structure AppState where
  original_data : Option Dataset
  vtk_data : Option Dataset
  current_opacity : ℚ
  wireframe_mode : Bool
  uploaded_file_path : Option String
  available_arrays : List String
  current_array : Option String
  slicing_enabled : Bool
  slice_position : ℚ
  slice_normal : Vec3
  multiple_slices : Bool
  num_slices : Nat
  slice_spacing : ℚ
  cached_geometry_data : Option GeometryData
  geometry_cache_hash : Option CacheKey
deriving DecidableEq, Repr

/-- A cut plane (`vtkPlane`): a normal and an origin. -/
structure Plane where
  normal : Vec3
  origin : Vec3
deriving DecidableEq, Repr

/-! ## Geometry packer (`extract_geometry_data`, packing section) -/

/-- Inner loop of the fan triangulation: for a cell `v0 :: rest`, emit the
triangle `(v0, rest[i], rest[i+1])` for each consecutive pair of `rest`,
matching `for i in range(1, n-1): faces.extend([id0, id_i, id_(i+1)])`. -/
def fanLoop (v0 : Nat) : List Nat → List Nat
  | a :: b :: rest => v0 :: a :: b :: fanLoop v0 (b :: rest)
  | _ => []

/-- Fan triangulation of one polygon cell.  Cells with fewer than three
vertices contribute nothing (the source guards with
`if id_list.GetNumberOfIds() >= 3`, and the loop range is empty anyway). -/
def fanTriangles : List Nat → List Nat
  | v0 :: rest => fanLoop v0 rest
  | [] => []

/-- The packing section of `extract_geometry_data`: from the polydata build
the flattened vertex array, the fan-triangulated face index array (with the
fallback triangle `[0, 1, 2]` when no faces were produced and points exist),
and the per-vertex colors (through the mapper's lookup table `lut` when
active scalars are present, else the fixed green `[0.0, 1.0, 0.0]`).
Returns `none` for the `num_points == 0` early `return {}`. -/
def packGeometry (lut : ℚ → Vec3) (polydata : Dataset) (opacity : ℚ)
    (wireframe : Bool) : Option GeometryData :=
  let num_points := polydata.points.length
  if num_points = 0 then none
  else
    let vertices := polydata.points.flatMap fun p => [p.1, p.2.1, p.2.2]
    let faces0 := polydata.polys.flatMap fanTriangles
    let faces := if faces0 = [] then
        (if 0 < num_points then [0, 1, 2] else faces0)
      else faces0
    let colors :=
      match polydata.pointScalars with
      | some vals => (List.range num_points).flatMap fun i =>
          let c := lut (vals.getD i 0); [c.1, c.2.1, c.2.2]
      | none => (List.range num_points).flatMap fun _ => [0, 1, 0]
    some { vertices := vertices
           faces := faces
           colors := colors
           vertex_count := num_points
           face_count := faces.length / 3
           opacity := opacity
           wireframe := wireframe }

/-! ## Slicing engine (`apply_slicing`) -/

/-- Smallest element of a coordinate list; on the empty list this yields
VTK's degenerate bound `1` (`GetBounds` returns `(1, -1, ...)` for empty
data). -/
def minList : List ℚ → ℚ
  | [] => 1
  | x :: t => t.foldl min x

/-- Largest element of a coordinate list; `-1` on the empty list, matching
VTK's degenerate bounds. -/
def maxList : List ℚ → ℚ
  | [] => -1
  | x :: t => t.foldl max x

/-- The cut plane built in the multi-slice branch for slice number `i`:
`offset = (i - num_slices // 2) * slice_spacing`, origin at raw coordinate
`slice_position + offset` on the axis selected by the normal (the other two
origin components are `0`; no dataset-bounds scaling happens here). -/
def multiPlane (s : AppState) (i : Nat) : Plane :=
  let offset : ℚ := ((i : ℚ) - ((s.num_slices / 2 : Nat) : ℚ)) * s.slice_spacing
  let c := s.slice_position + offset
  { normal := s.slice_normal
    origin :=
      if s.slice_normal.1 = 1 then (c, 0, 0)
      else if s.slice_normal.2.1 = 1 then (0, c, 0)
      else (0, 0, c) }

/-- The cut plane built in the single-slice branch: the coordinate along the
selected axis is the bounding-box center plus `slice_position` percent of the
extent along that axis, the other two origin components are the box center
coordinates; bounds are read from the dataset at call time. -/
def singlePlane (orig : Dataset) (s : AppState) : Plane :=
  let xs := orig.points.map fun p => p.1
  let ys := orig.points.map fun p => p.2.1
  let zs := orig.points.map fun p => p.2.2
  let center_x := (minList xs + maxList xs) / 2
  let center_y := (minList ys + maxList ys) / 2
  let center_z := (minList zs + maxList zs) / 2
  { normal := s.slice_normal
    origin :=
      if s.slice_normal.1 = 1 then
        (center_x + s.slice_position * (maxList xs - minList xs) / 100,
         center_y, center_z)
      else if s.slice_normal.2.1 = 1 then
        (center_x,
         center_y + s.slice_position * (maxList ys - minList ys) / 100,
         center_z)
      else
        (center_x, center_y,
         center_z + s.slice_position * (maxList zs - minList zs) / 100) }

/-- Polygon cells of a list of datasets concatenated, with each dataset's
point indices shifted by the number of points of the datasets before it. -/
def shiftedPolys : List Dataset → Nat → List (List Nat)
  | [], _ => []
  | d :: t, off =>
      d.polys.map (fun c => c.map (· + off)) ++ shiftedPolys t (off + d.points.length)

/-- Models `vtkAppendPolyData`: concatenates the point sets of the inputs
(no vertex welding), concatenates the polygon cells with indices shifted
into the combined point list, and concatenates point scalars when every
input carries them.  The output is a fresh polydata object (`newId`). -/
def appendPolyData (ds : List Dataset) (newId : Nat) : Dataset :=
  { objId := newId
    kind := .polyData
    points := ds.flatMap (·.points)
    polys := shiftedPolys ds 0
    pointScalars :=
      if ds.all (·.pointScalars.isSome) then
        some (ds.flatMap fun d => d.pointScalars.getD [])
      else none
    pointArrayNames := []
    cellArrayNames := [] }

/-- Embedding of `VTKXDMFDashApp.apply_slicing`.  The external cutter
(`vtkCutter` on `self.original_data` with a given plane) is a parameter
`cut`; `appendId` is the object identity of the fresh `vtkAppendPolyData`
output.  Mirrors the source: without original data or with slicing disabled,
`vtk_data` is reset to `original_data`; the multi-slice branch cuts the
original with `num_slices` planes from `multiPlane` and appends the
non-empty outputs (falling back to the original when every cut is empty);
the single-slice branch cuts with `singlePlane` and falls back to the
original when the cut has no points. -/
def apply_slicing (cut : Dataset → Plane → Dataset) (appendId : Nat)
    (s : AppState) : AppState :=
  match s.original_data with
  | none => { s with vtk_data := none }
  | some orig =>
    if s.slicing_enabled then
      if s.multiple_slices then
        let outs := (List.range s.num_slices).map fun i => cut orig (multiPlane s i)
        let nonEmpty := outs.filter fun d => 0 < d.points.length
        if 0 < nonEmpty.length then
          { s with vtk_data := some (appendPolyData nonEmpty appendId) }
        else
          { s with vtk_data := some orig }
      else
        let out := cut orig (singlePlane orig s)
        if 0 < out.points.length then { s with vtk_data := some out }
        else { s with vtk_data := some orig }
    else { s with vtk_data := some orig }

/-! ## Extraction entry point and cache (`extract_geometry_data`) -/

/-- The cache fingerprint computed at the top of `extract_geometry_data`
from the current state and the dataset currently bound to `self.vtk_data`.
As in the source, `slice_spacing` is not part of the key. -/
def geomKey (s : AppState) (d : Dataset) : CacheKey :=
  { dataId := d.objId
    opacity := s.current_opacity
    wireframe := s.wireframe_mode
    currentArray := s.current_array
    slicingEnabled := s.slicing_enabled
    slicePosition := s.slice_position
    sliceNormal := s.slice_normal
    multipleSlices := s.multiple_slices
    numSlices := s.num_slices }

/-- The conversion-to-polydata step of `extract_geometry_data`: unstructured
grids go through the surface filter, image data through the geometry filter,
and other data is used directly, except that the default (non-uploaded)
dataset with elevation coloring is run through the elevation filter. -/
def toPolydata (surfF geomF elevF : Dataset → Dataset) (s : AppState)
    (d : Dataset) : Dataset :=
  match d.kind with
  | .unstructuredGrid => surfF d
  | .imageData => geomF d
  | .polyData =>
      if s.uploaded_file_path = none ∧ s.current_array = some "Elevation" then
        elevF d
      else d

/-- Embedding of `VTKXDMFDashApp.extract_geometry_data`.  Returns the value
the Python method returns (`none` models the empty dict `{}`) together with
the state after the call.  Without data it returns `{}`; when the fingerprint
matches the stored hash it returns the cached record and does no work;
otherwise it slices, converts to polydata, packs (an empty polydata again
yields `{}` and the cache is not updated), stores the result in the
single-slot cache under the fingerprint computed at entry, and returns it. -/
def extract_geometry_data (cut : Dataset → Plane → Dataset) (appendId : Nat)
    (surfF geomF elevF : Dataset → Dataset) (lut : ℚ → Vec3)
    (s : AppState) : Option GeometryData × AppState :=
  match s.vtk_data with
  | none => (none, s)
  | some d =>
    let h := geomKey s d
    if s.geometry_cache_hash = some h then
      (s.cached_geometry_data, s)
    else
      let s1 := apply_slicing cut appendId s
      match s1.vtk_data with
      | none => (none, s1)
      | some d2 =>
        let polydata := toPolydata surfF geomF elevF s1 d2
        match packGeometry lut polydata s1.current_opacity s1.wireframe_mode with
        | none => (none, s1)
        | some g =>
            (some g, { s1 with cached_geometry_data := some g
                               geometry_cache_hash := some h })

/-! ## Loading (`load_xdmf_file` and the coloring helpers it calls) -/

/-- Embedding of `apply_array_coloring`: with an empty selection or no data
it does nothing; otherwise it activates the selected scalars on the mapper
(not modelled) and records the selection in `current_array`. -/
def apply_array_coloring (sel : String) (s : AppState) : AppState :=
  if sel = "" ∨ s.vtk_data = none then s
  else { s with current_array := some sel }

/-- Embedding of `apply_elevation_filter`: replaces `vtk_data` by the output
of the external elevation filter and records `"Elevation"` as the current
array. -/
def apply_elevation_filter (elevF : Dataset → Dataset) (s : AppState) : AppState :=
  { s with vtk_data := s.vtk_data.map elevF
           current_array := some "Elevation" }

/-- Embedding of `VTKXDMFDashApp.load_xdmf_file`.  The external XDMF reader
is the parameter `readX` (`none` models a reader exception, caught by the
source's `try`/`except` which returns `False`); `convI` is the external
`vtkImageDataToPointSet` conversion.  A loaded dataset with zero points
raises `ValueError`, also caught and turned into `False`.  Both failure
paths precede every assignment to `self`, so they leave the state untouched.
On success the reader output (converted when it is image data) becomes both
`original_data` and `vtk_data`, the file path and array-name list are
recorded, and either the first array is selected for coloring or the
elevation filter is applied. -/
def load_xdmf_file (readX : String → Option Dataset)
    (convI elevF : Dataset → Dataset) (path : String) (s : AppState) :
    Bool × AppState :=
  match readX path with
  | none => (false, s)
  | some output0 =>
    if output0.points.length = 0 then (false, s)
    else
      let output := if output0.kind = .imageData then convI output0 else output0
      let arrays := (output.pointArrayNames.map fun n => "Point: " ++ n)
        ++ (output.cellArrayNames.map fun n => "Cell: " ++ n)
      let s1 := { s with original_data := some output
                         vtk_data := some output
                         uploaded_file_path := some path
                         available_arrays := arrays }
      if arrays ≠ [] then
        (true, apply_array_coloring (arrays.headD "")
          { s1 with current_array := some (arrays.headD "") })
      else
        (true, apply_elevation_filter elevF s1)

/-! ## Synthetic volume generation (`create_large_volume_dataset`) -/

/-- The adaptive decimation stride `max(1, min(nx, ny, nz) // 20)`. -/
def strideOf (nx ny nz : Nat) : Nat := max 1 (min (min nx ny) nz / 20)

/-- The index list of Python's `range(0, stop, step)` for positive `step`
(the source's `stop` is `n - stride`, truncated at zero like Python's empty
range on a non-positive stop). -/
def strided (stop step : Nat) : List Nat :=
  (List.range ((stop + step - 1) / step)).map (· * step)

/-- The eight corner indices of one decimated hexahedron, in the source's
append order `[idx000, idx100, idx110, idx010, idx001, idx101, idx111,
idx011]`. -/
def hexIndices (nx ny stride i j k : Nat) : List Nat :=
  [k * nx * ny + j * nx + i,
   k * nx * ny + j * nx + (i + stride),
   k * nx * ny + (j + stride) * nx + (i + stride),
   k * nx * ny + (j + stride) * nx + i,
   (k + stride) * nx * ny + j * nx + i,
   (k + stride) * nx * ny + j * nx + (i + stride),
   (k + stride) * nx * ny + (j + stride) * nx + (i + stride),
   (k + stride) * nx * ny + (j + stride) * nx + i]

/-- The hexahedral connectivity built by `create_large_volume_dataset` for an
`nx × ny × nz` structured volume: one hexahedron per stride-sized block,
emitted only when its largest corner index is below the point count
(`len(scalars) == nx*ny*nz`). -/
def create_large_volume_connectivity (nx ny nz : Nat) : List (List Nat) :=
  let stride := strideOf nx ny nz
  (strided (nz - stride) stride).flatMap fun k =>
    (strided (ny - stride) stride).flatMap fun j =>
      (strided (nx - stride) stride).filterMap fun i =>
        let cell := hexIndices nx ny stride i j k
        if cell.foldl max 0 < nx * ny * nz then some cell else none

/-! ## Helper lemmas about the fan triangulation and flattened arrays -/

lemma fanLoop_length (v0 : Nat) : ∀ l : List Nat,
    (fanLoop v0 l).length = 3 * (l.length - 1)
  | [] => by simp [fanLoop]
  | [_] => by simp [fanLoop]
  | _ :: b :: rest => by
      have ih := fanLoop_length v0 (b :: rest)
      simp [fanLoop] at ih ⊢
      omega

lemma fanTriangles_length (c : List Nat) :
    (fanTriangles c).length = 3 * (c.length - 2) := by
  cases c with
  | nil => simp [fanTriangles]
  | cons v0 rest => simp [fanTriangles, fanLoop_length]

lemma mem_fanLoop (v0 x : Nat) : ∀ l : List Nat,
    x ∈ fanLoop v0 l → x = v0 ∨ x ∈ l
  | [] => by simp [fanLoop]
  | [_] => by simp [fanLoop]
  | a :: b :: rest => by
      intro hx
      simp only [fanLoop, List.mem_cons] at hx
      rcases hx with h | h | h | h
      · exact Or.inl h
      · exact Or.inr (by simp [h])
      · exact Or.inr (by simp [h])
      · rcases mem_fanLoop v0 x (b :: rest) h with h' | h'
        · exact Or.inl h'
        · exact Or.inr (List.mem_cons_of_mem a h')

lemma mem_fanTriangles (c : List Nat) (x : Nat) (hx : x ∈ fanTriangles c) :
    x ∈ c := by
  cases c with
  | nil => simp [fanTriangles] at hx
  | cons v0 rest =>
      rcases mem_fanLoop v0 x rest hx with h | h
      · simp [h]
      · exact List.mem_cons_of_mem v0 h

lemma fanTriangles_ne_nil (c : List Nat) (h3 : 3 ≤ c.length) :
    fanTriangles c ≠ [] := by
  intro h
  have := fanTriangles_length c
  rw [h] at this
  simp at this
  omega

lemma length_flatMap_fan_dvd (l : List (List Nat)) :
    3 ∣ (l.flatMap fanTriangles).length := by
  induction l with
  | nil => simp
  | cons c t ih =>
      rw [List.flatMap_cons, List.length_append, fanTriangles_length]
      exact dvd_add ⟨c.length - 2, rfl⟩ ih

lemma length_flatMap_const3 {α β : Type} (l : List α) (F : α → List β)
    (h : ∀ a, (F a).length = 3) : (l.flatMap F).length = 3 * l.length := by
  induction l with
  | nil => simp
  | cons a t ih =>
      rw [List.flatMap_cons, List.length_append, h a, ih, List.length_cons]
      ring

lemma length_range_flatMap_const3 {β : Type} (n : Nat) (F : Nat → List β)
    (h : ∀ a, (F a).length = 3) : ((List.range n).flatMap F).length = 3 * n := by
  rw [length_flatMap_const3 _ _ h, List.length_range]

lemma flatMap_fan_ne_nil (l : List (List Nat)) (c : List Nat) (hc : c ∈ l)
    (h3 : 3 ≤ c.length) : l.flatMap fanTriangles ≠ [] := by
  intro hf
  rcases List.exists_mem_of_ne_nil _ (fanTriangles_ne_nil c h3) with ⟨x, hx⟩
  have hmem : x ∈ l.flatMap fanTriangles := List.mem_flatMap.mpr ⟨c, hc, hx⟩
  rw [hf] at hmem
  exact (List.not_mem_nil x) hmem

/-! ## Claim C1 -/

/-- C1 (amended): every geometry record packed by the packing section of
`extract_geometry_data` from a polydata whose polygon cells reference only
valid point indices has a face array of length divisible by 3, colors and
vertices of exactly 3 components per vertex, and — provided the dataset has
at least 3 points or at least one genuine polygon (of ≥ 3 vertices) — every
face index below `vertex_count`.  The proviso is forced by the fallback
triangle `[0, 1, 2]` the source synthesizes when no faces are found. -/
theorem C1_packed_invariants (lut : ℚ → Vec3) (p : Dataset) (op : ℚ)
    (wf : Bool) (g : GeometryData)
    (hpack : packGeometry lut p op wf = some g)
    (hvalid : ∀ c ∈ p.polys, ∀ i ∈ c, i < p.points.length)
    (hbig : 3 ≤ p.points.length ∨ ∃ c ∈ p.polys, 3 ≤ c.length) :
    g.faces.length % 3 = 0 ∧ (∀ i ∈ g.faces, i < g.vertex_count) ∧
      g.colors.length = 3 * g.vertex_count ∧
      g.vertices.length = 3 * g.vertex_count ∧
      g.vertex_count = p.points.length := by
  simp only [packGeometry] at hpack
  by_cases h0 : p.points.length = 0
  · rw [if_pos h0] at hpack
    exact absurd hpack (by simp)
  rw [if_neg h0, Option.some.injEq] at hpack
  subst hpack
  have hvc : 0 < p.points.length := Nat.pos_of_ne_zero h0
  refine ⟨?_, ?_, ?_, ?_, rfl⟩
  · by_cases hf : p.polys.flatMap fanTriangles = []
    · simp [hf, hvc]
    · rcases length_flatMap_fan_dvd p.polys with ⟨m, hm⟩
      simp [hf, hm, Nat.mul_mod_right]
  · by_cases hf : p.polys.flatMap fanTriangles = []
    · have h3 : 3 ≤ p.points.length := by
        rcases hbig with h | ⟨c, hc, h3c⟩
        · exact h
        · exact absurd hf (flatMap_fan_ne_nil p.polys c hc h3c)
      intro i hi
      simp only [hf, if_pos, hvc, if_true] at hi
      simp only [List.mem_cons, List.not_mem_nil, or_false] at hi
      show i < p.points.length
      rcases hi with rfl | rfl | rfl <;> omega
    · intro i hi
      simp only [if_neg hf] at hi
      rcases List.mem_flatMap.mp hi with ⟨c, hc, hic⟩
      exact hvalid c hc i (mem_fanTriangles c i hic)
  · show _ = 3 * p.points.length
    cases hs : p.pointScalars with
    | none =>
        simp only [hs]
        exact length_range_flatMap_const3 _ _ (fun _ => rfl)
    | some vals =>
        simp only [hs]
        exact length_range_flatMap_const3 _ _ (fun _ => rfl)
  · exact length_flatMap_const3 _ _ (fun _ => rfl)

/-- Constant lookup table used by concrete test inputs. -/
def lutZero : ℚ → Vec3 := fun _ => (0, 0, 0)

/-- A one-point polydata with no polygon cells: a valid Mesh Dataset (its
empty cell list vacuously references only valid indices). -/
def onePointPoly : Dataset :=
  { objId := 0
    kind := .polyData
    points := [(0, 0, 0)]
    polys := []
    pointScalars := none
    pointArrayNames := []
    cellArrayNames := [] }

/-- The record the packer produces for `onePointPoly`. -/
def onePointPacked : GeometryData :=
  { vertices := [0, 0, 0]
    faces := [0, 1, 2]
    colors := [0, 1, 0]
    vertex_count := 1
    face_count := 1
    opacity := 1
    wireframe := false }

/-- C1 counterexample: packing a valid one-point, zero-polygon dataset yields
the fallback triangle `[0, 1, 2]`, whose index `1` is not below
`vertex_count = 1`; the claim's index bound fails as stated. -/
theorem C1_counterexample :
    packGeometry lutZero onePointPoly 1 false = some onePointPacked ∧
      1 ∈ onePointPacked.faces ∧ ¬ 1 < onePointPacked.vertex_count := by
  refine ⟨rfl, by simp [onePointPacked], by simp [onePointPacked]⟩

/-- A unit square polydata: four points, one quadrilateral cell. -/
def squarePoly : Dataset :=
  { objId := 0
    kind := .polyData
    points := [(0, 0, 0), (1, 0, 0), (1, 1, 0), (0, 1, 0)]
    polys := [[0, 1, 2, 3]]
    pointScalars := none
    pointArrayNames := []
    cellArrayNames := [] }

/-- The record the packer produces for `squarePoly`: the quad is fanned into
the triangles `(0,1,2)` and `(0,2,3)`. -/
def squarePacked : GeometryData :=
  { vertices := [0, 0, 0, 1, 0, 0, 1, 1, 0, 0, 1, 0]
    faces := [0, 1, 2, 0, 2, 3]
    colors := [0, 1, 0, 0, 1, 0, 0, 1, 0, 0, 1, 0]
    vertex_count := 4
    face_count := 2
    opacity := 1
    wireframe := false }

/-- Witness for C1: the amended invariants instantiated on the packed unit
square. -/
theorem C1_witness :
    (∀ i ∈ squarePacked.faces, i < squarePacked.vertex_count) ∧
      squarePacked.faces.length % 3 = 0 ∧
      squarePacked.colors.length = 3 * squarePacked.vertex_count := by
  have h := C1_packed_invariants lutZero squarePoly 1 false squarePacked rfl
    (by decide) (Or.inl (by decide))
  exact ⟨h.2.1, h.1, h.2.2.1⟩

/-! ## Claim C2 -/

/-- C2 (amended): for a dataset with at least one point and zero polygon
cells, the packer does not emit an empty index array; it synthesizes the
fallback triangle `[0, 1, 2]` ("Creating a simple triangle to make something
visible" in the source), leaving a non-empty face list. -/
theorem C2_fallback_triangle (lut : ℚ → Vec3) (p : Dataset) (op : ℚ)
    (wf : Bool) (hpolys : p.polys = []) (hpts : p.points ≠ []) :
    (packGeometry lut p op wf).map GeometryData.faces = some [0, 1, 2] := by
  have h0 : p.points.length ≠ 0 := fun h => hpts (List.eq_nil_of_length_eq_zero h)
  have hvc : 0 < p.points.length := Nat.pos_of_ne_zero h0
  simp only [packGeometry, hpolys, List.flatMap_nil]
  rw [if_neg h0]
  simp [hvc]

/-- A three-point polydata with no polygon cells (point cloud). -/
def cloudPoly : Dataset :=
  { objId := 0
    kind := .polyData
    points := [(0, 0, 0), (1, 0, 0), (0, 1, 0)]
    polys := []
    pointScalars := none
    pointArrayNames := []
    cellArrayNames := [] }

/-- C2 counterexample: a three-point dataset with zero polygons is packed
with face list `[0, 1, 2]`, not with the empty index array the claim
asserts. -/
theorem C2_counterexample :
    (packGeometry lutZero cloudPoly 1 false).map GeometryData.faces
        = some [0, 1, 2] ∧
      some [0, 1, 2] ≠ some ([] : List Nat) := by
  exact ⟨rfl, by simp⟩

/-- Witness for C2: the amended fallback statement instantiated on a concrete
one-point dataset. -/
theorem C2_witness :
    (packGeometry lutZero onePointPoly (1 / 2) true).map GeometryData.faces
      = some [0, 1, 2] :=
  C2_fallback_triangle lutZero onePointPoly (1 / 2) true rfl (by
    simp [onePointPoly])

/-! ## Claim C3 -/

/-- C3: whenever every cut the slicing engine performs comes back with zero
points — the single-plane cut in single-slice mode, every per-plane cut in
multi-slice mode — `apply_slicing` falls back to binding the unsliced
original dataset, not an empty result; the function returns normally (the
fallback is a logged warning in the source, not an error path). -/
theorem C3_empty_cut_falls_back (cut : Dataset → Plane → Dataset)
    (appendId : Nat) (s : AppState) (orig : Dataset)
    (horig : s.original_data = some orig)
    (hsingle : (cut orig (singlePlane orig s)).points = [])
    (hmulti : ∀ i, i < s.num_slices → (cut orig (multiPlane s i)).points = []) :
    (apply_slicing cut appendId s).vtk_data = some orig := by
  simp only [apply_slicing, horig]
  by_cases hen : s.slicing_enabled
  · simp only [hen, if_true]
    by_cases hm : s.multiple_slices
    · simp only [hm, if_true]
      have hfilter :
          (((List.range s.num_slices).map fun i => cut orig (multiPlane s i)).filter
            fun d => 0 < d.points.length) = [] := by
        rw [List.filter_eq_nil_iff]
        intro d hd
        rcases List.mem_map.mp hd with ⟨i, hi, rfl⟩
        rw [hmulti i (List.mem_range.mp hi)]
        simp
      simp [hfilter]
    · simp [hm, hsingle]
  · simp [hen]

/-- Cut oracle that always produces an empty polydata. -/
def cutEmpty : Dataset → Plane → Dataset := fun _ _ =>
  { objId := 3
    kind := .polyData
    points := []
    polys := []
    pointScalars := none
    pointArrayNames := []
    cellArrayNames := [] }

/-- Baseline application state used by the concrete scenarios: the square
dataset is loaded, single-slice slicing along x is enabled, the cache is
empty. -/
def stBase : AppState :=
  { original_data := some squarePoly
    vtk_data := some squarePoly
    current_opacity := 1
    wireframe_mode := false
    uploaded_file_path := some "example.xdmf"
    available_arrays := ["Point: Density"]
    current_array := some "Point: Density"
    slicing_enabled := true
    slice_position := 0
    slice_normal := (1, 0, 0)
    multiple_slices := false
    num_slices := 5
    slice_spacing := 1
    cached_geometry_data := none
    geometry_cache_hash := none }

/-- Witness for C3: with a cutter that intersects nothing, slicing the
square dataset hands back the square dataset itself. -/
theorem C3_witness :
    (apply_slicing cutEmpty 7 stBase).vtk_data = some squarePoly :=
  C3_empty_cut_falls_back cutEmpty 7 stBase squarePoly rfl rfl
    (fun _ _ => rfl)

/-! ## Claim C7 -/

/-- C7: in multi-slice mode the engine cuts the original dataset once per
plane `i < num_slices`, each plane sharing the request normal and sitting at
coordinate `slice_position + (i - num_slices / 2) * slice_spacing` (integer
halving, matching Python's `//`) along that normal, and the non-empty cut
outputs are concatenated — points juxtaposed, cells index-shifted, no vertex
welding, so the combined point count is the plain sum of the per-slice point
counts. -/
theorem C7_multi_slice_concatenation (cut : Dataset → Plane → Dataset)
    (appendId : Nat) (s : AppState) (orig : Dataset)
    (horig : s.original_data = some orig)
    (hen : s.slicing_enabled = true)
    (hm : s.multiple_slices = true) :
    (∀ i, (multiPlane s i).normal = s.slice_normal ∧
      (s.slice_normal.1 = 1 → (multiPlane s i).origin =
        (s.slice_position + ((i : ℚ) - ((s.num_slices / 2 : Nat) : ℚ))
          * s.slice_spacing, 0, 0)) ∧
      (s.slice_normal.1 ≠ 1 → s.slice_normal.2.1 = 1 → (multiPlane s i).origin =
        (0, s.slice_position + ((i : ℚ) - ((s.num_slices / 2 : Nat) : ℚ))
          * s.slice_spacing, 0)) ∧
      (s.slice_normal.1 ≠ 1 → s.slice_normal.2.1 ≠ 1 → (multiPlane s i).origin =
        (0, 0, s.slice_position + ((i : ℚ) - ((s.num_slices / 2 : Nat) : ℚ))
          * s.slice_spacing))) ∧
    (((List.range s.num_slices).map fun i => cut orig (multiPlane s i)).filter
        (fun d => 0 < d.points.length) ≠ [] →
      (apply_slicing cut appendId s).vtk_data =
        some (appendPolyData
          (((List.range s.num_slices).map fun i => cut orig (multiPlane s i)).filter
            fun d => 0 < d.points.length) appendId) ∧
      ∀ ds : List Dataset,
        (appendPolyData ds appendId).points = ds.flatMap Dataset.points ∧
        (appendPolyData ds appendId).points.length =
          (ds.map fun d => d.points.length).sum ∧
        (appendPolyData ds appendId).polys = shiftedPolys ds 0) := by
  constructor
  · intro i
    refine ⟨rfl, ?_, ?_, ?_⟩
    · intro hx
      simp [multiPlane, hx]
    · intro hx hy
      simp [multiPlane, hx, hy]
    · intro hx hy
      simp [multiPlane, hx, hy]
  · intro hne
    constructor
    · simp only [apply_slicing, horig, hen, if_true, hm]
      rw [if_pos (List.length_pos.mpr hne)]
    · intro ds
      refine ⟨rfl, ?_, rfl⟩
      simp only [appendPolyData, List.length_flatMap]
      rfl

/-- Cut oracle returning the fixed triangle polydata regardless of the
plane. -/
def cutTri : Dataset → Plane → Dataset := fun _ _ =>
  { objId := 2
    kind := .polyData
    points := [(0, 0, 0), (2, 0, 0), (0, 2, 0)]
    polys := [[0, 1, 2]]
    pointScalars := none
    pointArrayNames := []
    cellArrayNames := [] }

/-- The triangle polydata `cutTri` always returns. -/
def triSlice : Dataset :=
  { objId := 2
    kind := .polyData
    points := [(0, 0, 0), (2, 0, 0), (0, 2, 0)]
    polys := [[0, 1, 2]]
    pointScalars := none
    pointArrayNames := []
    cellArrayNames := [] }

/-- Multi-slice variant of the baseline state: two parallel slices. -/
def stMulti : AppState :=
  { stBase with multiple_slices := true, num_slices := 2 }

/-- Witness for C7: two non-empty sub-slices of the square are concatenated;
the combined dataset holds both point sets back to back, six points in
total. -/
theorem C7_witness :
    (apply_slicing cutTri 9 stMulti).vtk_data =
        some (appendPolyData [triSlice, triSlice] 9) ∧
      (appendPolyData [triSlice, triSlice] 9).points =
        triSlice.points ++ triSlice.points ∧
      (appendPolyData [triSlice, triSlice] 9).points.length = 6 := by
  have h := (C7_multi_slice_concatenation cutTri 9 stMulti squarePoly rfl rfl
    rfl).2 (List.cons_ne_nil _ _)
  refine ⟨h.1, ?_, ?_⟩
  · exact (h.2 [triSlice, triSlice]).1
  · exact (h.2 [triSlice, triSlice]).2.1

/-! ## Claim C6 -/

/-- C6 (amended): the bounding-box-percentage parameterization holds in
single-slice mode: there the plane handed to the cutter is `singlePlane`,
whose coordinate along the slice normal is the live bounding-box center plus
`slice_position` percent of the extent along that axis.  (Multi-slice mode
does not apply this scaling; see the counterexample.) -/
theorem C6_single_slice_uses_bounds (cut : Dataset → Plane → Dataset)
    (appendId : Nat) (s : AppState) (orig : Dataset)
    (horig : s.original_data = some orig)
    (hen : s.slicing_enabled = true)
    (hsm : s.multiple_slices = false) :
    ((apply_slicing cut appendId s).vtk_data
        = some (cut orig (singlePlane orig s)) ∨
      (apply_slicing cut appendId s).vtk_data = some orig) ∧
    (s.slice_normal.1 = 1 →
      (singlePlane orig s).origin.1 =
        (minList (orig.points.map fun p => p.1)
            + maxList (orig.points.map fun p => p.1)) / 2
          + s.slice_position * (maxList (orig.points.map fun p => p.1)
            - minList (orig.points.map fun p => p.1)) / 100) ∧
    (s.slice_normal.1 ≠ 1 → s.slice_normal.2.1 = 1 →
      (singlePlane orig s).origin.2.1 =
        (minList (orig.points.map fun p => p.2.1)
            + maxList (orig.points.map fun p => p.2.1)) / 2
          + s.slice_position * (maxList (orig.points.map fun p => p.2.1)
            - minList (orig.points.map fun p => p.2.1)) / 100) ∧
    (s.slice_normal.1 ≠ 1 → s.slice_normal.2.1 ≠ 1 →
      (singlePlane orig s).origin.2.2 =
        (minList (orig.points.map fun p => p.2.2)
            + maxList (orig.points.map fun p => p.2.2)) / 2
          + s.slice_position * (maxList (orig.points.map fun p => p.2.2)
            - minList (orig.points.map fun p => p.2.2)) / 100) := by
  refine ⟨?_, ?_, ?_, ?_⟩
  · simp only [apply_slicing, horig, hen, if_true, hsm]
    by_cases hc : 0 < (cut orig (singlePlane orig s)).points.length
    · simp [hc]
    · simp [hc]
  · intro hx
    simp [singlePlane, hx]
  · intro hx hy
    simp [singlePlane, hx, hy]
  · intro hx hy
    simp [singlePlane, hx, hy]

/-- Two collinear points spanning x ∈ [10, 30] (center 20, extent 20). -/
def segPoly : Dataset :=
  { objId := 4
    kind := .polyData
    points := [(10, 0, 0), (30, 0, 0)]
    polys := []
    pointScalars := none
    pointArrayNames := []
    cellArrayNames := [] }

/-- Multi-slice request on the segment dataset: one slice, position 10. -/
def stSeg : AppState :=
  { stBase with original_data := some segPoly
                vtk_data := some segPoly
                multiple_slices := true
                num_slices := 1
                slice_position := 10
                slice_spacing := 0 }

/-- Cut oracle that reports the plane it was handed: its output's single
point is the plane origin. -/
def cutTag : Dataset → Plane → Dataset := fun _ p =>
  { objId := 42
    kind := .polyData
    points := [p.origin]
    polys := []
    pointScalars := none
    pointArrayNames := []
    cellArrayNames := [] }

/-- C6 counterexample: slicing the segment dataset (bounds center 20, extent
20) at position 10 in multi-slice mode cuts at raw coordinate `x = 10`, not
at the bounds-scaled `20 + 10 * 20 / 100 = 22` the claim requires for every
slicing request. -/
theorem C6_counterexample :
    ((apply_slicing cutTag 9 stSeg).vtk_data.map Dataset.points)
        = some [((10 : ℚ), (0 : ℚ), (0 : ℚ))] ∧
      (minList (segPoly.points.map fun p => p.1)
          + maxList (segPoly.points.map fun p => p.1)) / 2
        + stSeg.slice_position * (maxList (segPoly.points.map fun p => p.1)
          - minList (segPoly.points.map fun p => p.1)) / 100 = 22 ∧
      (10 : ℚ) ≠ 22 := by
  refine ⟨?_, ?_, by norm_num⟩
  · simp only [apply_slicing, stSeg, stBase, multiPlane, cutTag, appendPolyData,
      shiftedPolys, segPoly]
    norm_num
  · simp only [stSeg, stBase, segPoly, minList, maxList, List.map]
    norm_num

/-- Witness for C6: the single-slice plane for the segment dataset at
position 10 sits at `x = 22`, the bounds-scaled coordinate. -/
theorem C6_witness :
    (singlePlane segPoly { stSeg with multiple_slices := false }).origin.1 =
      (minList (segPoly.points.map fun p => p.1)
          + maxList (segPoly.points.map fun p => p.1)) / 2
        + (10 : ℚ) * (maxList (segPoly.points.map fun p => p.1)
          - minList (segPoly.points.map fun p => p.1)) / 100 :=
  (C6_single_slice_uses_bounds cutTag 9 { stSeg with multiple_slices := false }
    segPoly rfl rfl rfl).2.1 rfl

/-! ## Shared unfolding lemmas for `extract_geometry_data` -/

lemma extract_hit (cut : Dataset → Plane → Dataset) (appendId : Nat)
    (surfF geomF elevF : Dataset → Dataset) (lut : ℚ → Vec3)
    (s : AppState) (d : Dataset)
    (hvtk : s.vtk_data = some d)
    (hhit : s.geometry_cache_hash = some (geomKey s d)) :
    extract_geometry_data cut appendId surfF geomF elevF lut s
      = (s.cached_geometry_data, s) := by
  simp only [extract_geometry_data, hvtk]
  rw [if_pos hhit]

lemma extract_miss_some (cut : Dataset → Plane → Dataset) (appendId : Nat)
    (surfF geomF elevF : Dataset → Dataset) (lut : ℚ → Vec3)
    (s : AppState) (d d2 : Dataset) (g : GeometryData)
    (hvtk : s.vtk_data = some d)
    (hmiss : ¬ s.geometry_cache_hash = some (geomKey s d))
    (hvtk1 : (apply_slicing cut appendId s).vtk_data = some d2)
    (hp : packGeometry lut
        (toPolydata surfF geomF elevF (apply_slicing cut appendId s) d2)
        (apply_slicing cut appendId s).current_opacity
        (apply_slicing cut appendId s).wireframe_mode = some g) :
    extract_geometry_data cut appendId surfF geomF elevF lut s
      = (some g, { apply_slicing cut appendId s with
          cached_geometry_data := some g
          geometry_cache_hash := some (geomKey s d) }) := by
  simp only [extract_geometry_data, hvtk]
  rw [if_neg hmiss]
  simp only [hvtk1, hp]

lemma extract_miss_pack_empty (cut : Dataset → Plane → Dataset) (appendId : Nat)
    (surfF geomF elevF : Dataset → Dataset) (lut : ℚ → Vec3)
    (s : AppState) (d d2 : Dataset)
    (hvtk : s.vtk_data = some d)
    (hmiss : ¬ s.geometry_cache_hash = some (geomKey s d))
    (hvtk1 : (apply_slicing cut appendId s).vtk_data = some d2)
    (hp : packGeometry lut
        (toPolydata surfF geomF elevF (apply_slicing cut appendId s) d2)
        (apply_slicing cut appendId s).current_opacity
        (apply_slicing cut appendId s).wireframe_mode = none) :
    extract_geometry_data cut appendId surfF geomF elevF lut s
      = (none, apply_slicing cut appendId s) := by
  simp only [extract_geometry_data, hvtk]
  rw [if_neg hmiss]
  simp only [hvtk1, hp]

/-! ## Claim C4 -/

/-- C4 (amended): when the dataset object bound to `vtk_data` is stable
across the two calls — here, slicing disabled with `vtk_data` already at the
original dataset — a second identical-parameter request is a pure cache hit:
it returns the identical packed record and leaves the whole state (cache
included) unchanged, performing no re-slicing or re-packing.  (With slicing
enabled and a non-empty cut this fails, because the first call rebinds
`vtk_data` to the cutter output, whose object id changes the fingerprint;
see the counterexample.) -/
theorem C4_second_request_is_cache_hit (cut : Dataset → Plane → Dataset)
    (appendId : Nat) (surfF geomF elevF : Dataset → Dataset) (lut : ℚ → Vec3)
    (s : AppState) (orig : Dataset) (g : GeometryData)
    (horig : s.original_data = some orig)
    (hvtk : s.vtk_data = some orig)
    (hdis : s.slicing_enabled = false)
    (h1 : (extract_geometry_data cut appendId surfF geomF elevF lut s).1
      = some g) :
    extract_geometry_data cut appendId surfF geomF elevF lut
        (extract_geometry_data cut appendId surfF geomF elevF lut s).2
      = (some g, (extract_geometry_data cut appendId surfF geomF elevF lut s).2) := by
  have hsl : apply_slicing cut appendId s = { s with vtk_data := some orig } := by
    simp [apply_slicing, horig, hdis]
  by_cases hhit : s.geometry_cache_hash = some (geomKey s orig)
  · have hE := extract_hit cut appendId surfF geomF elevF lut s orig hvtk hhit
    rw [hE] at h1 ⊢
    simp only at h1 ⊢
    rw [extract_hit cut appendId surfF geomF elevF lut s orig hvtk hhit, h1]
  · cases hp : packGeometry lut
        (toPolydata surfF geomF elevF (apply_slicing cut appendId s) orig)
        (apply_slicing cut appendId s).current_opacity
        (apply_slicing cut appendId s).wireframe_mode with
    | none =>
        have hE := extract_miss_pack_empty cut appendId surfF geomF elevF lut
          s orig orig hvtk hhit (by rw [hsl]) hp
        rw [hE] at h1
        simp at h1
    | some g' =>
        have hvtk1 : (apply_slicing cut appendId s).vtk_data = some orig := by
          rw [hsl]
        have hE := extract_miss_some cut appendId surfF geomF elevF lut
          s orig orig g' hvtk hhit hvtk1 hp
        rw [hE] at h1
        simp only at h1
        rw [Option.some.injEq] at h1
        subst h1
        rw [hE]
        simp only
        have hv2 : ({ apply_slicing cut appendId s with
            cached_geometry_data := some g'
            geometry_cache_hash := some (geomKey s orig) } : AppState).vtk_data
            = some orig := by
          rw [hsl]
        have hk2 : ({ apply_slicing cut appendId s with
            cached_geometry_data := some g'
            geometry_cache_hash := some (geomKey s orig) } : AppState).geometry_cache_hash
            = some (geomKey { apply_slicing cut appendId s with
                cached_geometry_data := some g'
                geometry_cache_hash := some (geomKey s orig) } orig) := by
          rw [hsl]; rfl
        rw [extract_hit cut appendId surfF geomF elevF lut _ orig hv2 hk2]

/-- Baseline state with slicing disabled. -/
def stDisabled : AppState := { stBase with slicing_enabled := false }

/-- The state after a first (cache-miss) extraction on `stDisabled`. -/
def stDisabledAfter : AppState :=
  { stDisabled with vtk_data := some squarePoly
                    cached_geometry_data := some squarePacked
                    geometry_cache_hash := some (geomKey stDisabled squarePoly) }

/-- Witness for C4: after one extraction with slicing disabled, re-running
with identical parameters returns the same packed square and does not touch
the state. -/
theorem C4_witness :
    extract_geometry_data cutEmpty 7 id id id lutZero stDisabledAfter
      = (some squarePacked, stDisabledAfter) :=
  C4_second_request_is_cache_hit cutEmpty 7 id id id lutZero stDisabled
    squarePoly squarePacked rfl rfl rfl rfl

/-- The record the packer produces for the triangle slice `triSlice`. -/
def triPacked : GeometryData :=
  { vertices := [0, 0, 0, 2, 0, 0, 0, 2, 0]
    faces := [0, 1, 2]
    colors := [0, 1, 0, 0, 1, 0, 0, 1, 0]
    vertex_count := 3
    face_count := 1
    opacity := 1
    wireframe := false }

/-- C4 counterexample: with slicing enabled and a non-empty cut, two
consecutive identical-parameter extractions both return the same packed
triangle, but the second call is NOT served from the cache: it recomputes
and rewrites the cache slot (the resulting state differs), because the
fingerprint hashes the identity of `vtk_data`, which the first call rebound
to the cutter output. -/
theorem C4_counterexample :
    (extract_geometry_data cutTri 9 id id id lutZero stBase).1
        = some triPacked ∧
      (extract_geometry_data cutTri 9 id id id lutZero
          (extract_geometry_data cutTri 9 id id id lutZero stBase).2).1
        = some triPacked ∧
      (extract_geometry_data cutTri 9 id id id lutZero
          (extract_geometry_data cutTri 9 id id id lutZero stBase).2).2
        ≠ (extract_geometry_data cutTri 9 id id id lutZero stBase).2 := by
  refine ⟨rfl, rfl, ?_⟩
  intro h
  exact absurd (congrArg AppState.geometry_cache_hash h) (by decide)

/-! ## Claim C5 -/

/-- C5 (corrected form): the cache fingerprint is NOT a function of
`slice_spacing` — changing only the spacing never changes the fingerprint —
and whenever the stored hash equals the current fingerprint the request is
served the cached record with no recomputation and no state change. -/
theorem C5_fingerprint_ignores_spacing (cut : Dataset → Plane → Dataset)
    (appendId : Nat) (surfF geomF elevF : Dataset → Dataset) (lut : ℚ → Vec3)
    (s : AppState) (d : Dataset) (q : ℚ)
    (hvtk : s.vtk_data = some d) :
    geomKey { s with slice_spacing := q } d = geomKey s d ∧
      (s.geometry_cache_hash = some (geomKey s d) →
        extract_geometry_data cut appendId surfF geomF elevF lut s
          = (s.cached_geometry_data, s)) :=
  ⟨rfl, fun hhit =>
    extract_hit cut appendId surfF geomF elevF lut s d hvtk hhit⟩

/-- Multi-slice state (two slices, spacing 2) whose cache already holds the
packed square under the fingerprint of the current parameters. -/
def stSpacingCached : AppState :=
  { stBase with multiple_slices := true
                num_slices := 2
                slice_spacing := 2
                cached_geometry_data := some squarePacked
                geometry_cache_hash := some (geomKey
                  { stBase with multiple_slices := true
                                num_slices := 2
                                slice_spacing := 2 } squarePoly) }

/-- The same session after the user changes only the slice spacing. -/
def stSpacingChanged : AppState := { stSpacingCached with slice_spacing := 4 }

/-- Cut oracle whose output is non-empty exactly for a plane at `x = -4`:
under spacing 2 the two planes sit at `x = -2, 0` (all cuts empty), under
spacing 4 at `x = -4, 0` (one non-empty cut), so the slice output genuinely
depends on the spacing. -/
def cutAtMinus4 : Dataset → Plane → Dataset := fun _ p =>
  if p.origin.1 = -4 then
    { objId := 5
      kind := .polyData
      points := [p.origin]
      polys := []
      pointScalars := none
      pointArrayNames := []
      cellArrayNames := [] }
  else
    { objId := 5
      kind := .polyData
      points := []
      polys := []
      pointScalars := none
      pointArrayNames := []
      cellArrayNames := [] }

/-- C5 counterexample: two requests that differ only in `slice_spacing`
(slicing enabled, multiple slices on) have EQUAL fingerprints, so the second
request is answered from the cache with the stale record and an unchanged
state — even though re-slicing under the new spacing would produce a
different dataset (one non-empty sub-slice instead of the fallback to the
original). -/
theorem C5_counterexample :
    stSpacingChanged.slice_spacing ≠ stSpacingCached.slice_spacing ∧
      geomKey stSpacingChanged squarePoly = geomKey stSpacingCached squarePoly ∧
      extract_geometry_data cutAtMinus4 11 id id id lutZero stSpacingChanged
        = (some squarePacked, stSpacingChanged) ∧
      ((apply_slicing cutAtMinus4 11 stSpacingCached).vtk_data.map
          fun d => d.points.length) = some 4 ∧
      ((apply_slicing cutAtMinus4 11 stSpacingChanged).vtk_data.map
          fun d => d.points.length) = some 1 := by
  refine ⟨by decide, rfl, rfl, ?_, ?_⟩
  · simp only [apply_slicing, stSpacingCached, stBase, multiPlane, cutAtMinus4]
    norm_num [squarePoly, List.range_succ, List.filter]
  · simp only [apply_slicing, stSpacingChanged, stSpacingCached, stBase,
      multiPlane, cutAtMinus4, appendPolyData]
    norm_num [squarePoly, List.range_succ, List.filter]

/-- Witness for C5: spacing 99 yields the same fingerprint as spacing 2 on
the cached multi-slice state, and the request is served from the cache with
the state unchanged. -/
theorem C5_witness :
    geomKey { stSpacingCached with slice_spacing := 99 } squarePoly
        = geomKey stSpacingCached squarePoly ∧
      extract_geometry_data cutEmpty 7 id id id lutZero stSpacingCached
        = (some squarePacked, stSpacingCached) := by
  have h := C5_fingerprint_ignores_spacing cutEmpty 7 id id id lutZero
    stSpacingCached squarePoly 99 rfl
  exact ⟨h.1, h.2 rfl⟩

/-! ## Claim C9 -/

/-- C9: a load whose reader output has zero points fails — the call returns
`False` to its caller instead of propagating the `ValueError` (the source
catches it) — and every failing load leaves the whole session state
(`original_data`, `vtk_data`, `uploaded_file_path`, `available_arrays`, and
the rest) exactly as it was: both failure exits precede every assignment to
the session object. -/
theorem C9_load_failure_preserves_state (readX : String → Option Dataset)
    (convI elevF : Dataset → Dataset) (path : String) (s : AppState) :
    ((load_xdmf_file readX convI elevF path s).1 = false →
      (load_xdmf_file readX convI elevF path s).2 = s) ∧
    (∀ o, readX path = some o → o.points.length = 0 →
      load_xdmf_file readX convI elevF path s = (false, s)) := by
  constructor
  · intro hfail
    cases hr : readX path with
    | none => simp [load_xdmf_file, hr]
    | some o =>
        by_cases h0 : o.points.length = 0
        · simp [load_xdmf_file, hr, h0]
        · exfalso
          simp only [load_xdmf_file, hr] at hfail
          rw [if_neg h0] at hfail
          by_cases ha : ((if o.kind = DatasetKind.imageData then convI o
              else o).pointArrayNames.map fun n => "Point: " ++ n)
              ++ ((if o.kind = DatasetKind.imageData then convI o
                else o).cellArrayNames.map fun n => "Cell: " ++ n) ≠ [] <;>
            simp [ha] at hfail
  · intro o hr h0
    simp [load_xdmf_file, hr, h0]

/-- Dataset as read: three points, one scalar field named `Density`. -/
def readTri : Dataset :=
  { objId := 6
    kind := .polyData
    points := [(0, 0, 0), (2, 0, 0), (0, 2, 0)]
    polys := [[0, 1, 2]]
    pointScalars := some [20, 55, 90]
    pointArrayNames := ["Density"]
    cellArrayNames := [] }

/-- Reader oracle whose file parses to a dataset with zero points. -/
def readZeroPoints : String → Option Dataset := fun _ =>
  some { objId := 6
         kind := .polyData
         points := []
         polys := []
         pointScalars := none
         pointArrayNames := ["Density"]
         cellArrayNames := [] }

/-- Witness for C9: loading a file that parses to a zero-point dataset
returns `False` with the state untouched. -/
theorem C9_witness :
    load_xdmf_file readZeroPoints id id "empty.xdmf" stBase
      = (false, stBase) :=
  (C9_load_failure_preserves_state readZeroPoints id id "empty.xdmf"
    stBase).2 _ rfl rfl

/-! ## Claim C10 -/

/-- C10: `extract_geometry_data` returns the empty dict `{}` (modelled as
`none`: a record carrying none of the output-contract fields, as opposed to
`some` record with zero counts) both when no dataset is bound to `vtk_data`
and when the polydata left after slicing and conversion has zero points; in
the latter case the cache is not updated either. -/
theorem C10_empty_inputs_give_empty_record (cut : Dataset → Plane → Dataset)
    (appendId : Nat) (surfF geomF elevF : Dataset → Dataset) (lut : ℚ → Vec3)
    (s : AppState) :
    (s.vtk_data = none →
      extract_geometry_data cut appendId surfF geomF elevF lut s = (none, s)) ∧
    (∀ d d2, s.vtk_data = some d →
      ¬ s.geometry_cache_hash = some (geomKey s d) →
      (apply_slicing cut appendId s).vtk_data = some d2 →
      (toPolydata surfF geomF elevF (apply_slicing cut appendId s) d2).points
        = [] →
      extract_geometry_data cut appendId surfF geomF elevF lut s
        = (none, apply_slicing cut appendId s)) := by
  constructor
  · intro hnone
    simp [extract_geometry_data, hnone]
  · intro d d2 hvtk hmiss hvtk1 hpoly
    have hp : packGeometry lut
        (toPolydata surfF geomF elevF (apply_slicing cut appendId s) d2)
        (apply_slicing cut appendId s).current_opacity
        (apply_slicing cut appendId s).wireframe_mode = none := by
      simp [packGeometry, hpoly]
    exact extract_miss_pack_empty cut appendId surfF geomF elevF lut s d d2
      hvtk hmiss hvtk1 hp

/-- State with no dataset bound to `vtk_data`. -/
def stNoData : AppState := { stBase with vtk_data := none }

/-- State whose loaded dataset is empty, so slicing falls back to it and the
converted polydata has zero points. -/
def stEmptyData : AppState :=
  { stBase with
      original_data := some (cutEmpty squarePoly (singlePlane squarePoly stBase))
      vtk_data := some (cutEmpty squarePoly (singlePlane squarePoly stBase)) }

/-- Witness for C10: both empty-input prongs instantiated — no dataset, and
an empty polydata surviving slicing — return the empty record and leave the
cache slot unwritten. -/
theorem C10_witness :
    extract_geometry_data cutEmpty 7 id id id lutZero stNoData
        = (none, stNoData) ∧
      extract_geometry_data cutEmpty 7 id id id lutZero stEmptyData
        = (none, stEmptyData) := by
  constructor
  · exact (C10_empty_inputs_give_empty_record cutEmpty 7 id id id lutZero
      stNoData).1 rfl
  · exact (C10_empty_inputs_give_empty_record cutEmpty 7 id id id lutZero
      stEmptyData).2 _ _ rfl (fun h => Option.noConfusion h) rfl rfl

/-! ## Claim C8 -/

lemma foldl_max_le_init : ∀ (l : List Nat) (a : Nat), a ≤ l.foldl max a
  | [], a => le_refl a
  | b :: t, a => le_trans (le_max_left a b) (foldl_max_le_init t (max a b))

lemma le_foldl_max_of_mem : ∀ (l : List Nat) (a x : Nat), x ∈ l → x ≤ l.foldl max a
  | [], _, x, hx => absurd hx (List.not_mem_nil x)
  | b :: t, a, x, hx => by
      rcases List.mem_cons.mp hx with rfl | hx'
      · exact le_trans (le_max_right a x) (foldl_max_le_init t (max a x))
      · exact le_foldl_max_of_mem t (max a b) x hx'

lemma length_filterMap_of_forall {α β : Type} (l : List α) (f : α → β)
    (q : α → Prop) [DecidablePred q] (h : ∀ a ∈ l, q a) :
    (l.filterMap fun a => if q a then some (f a) else none).length
      = l.length := by
  induction l with
  | nil => simp
  | cons a t ih =>
      rw [List.filterMap_cons, if_pos (h a (List.mem_cons_self a t))]
      simp only [List.length_cons]
      rw [ih fun b hb => h b (List.mem_cons_of_mem a hb)]

lemma sum_map_const_on {α : Type} (l : List α) (f : α → Nat) (c : Nat)
    (h : ∀ a ∈ l, f a = c) : (l.map f).sum = l.length * c := by
  induction l with
  | nil => simp
  | cons a t ih =>
      rw [List.map_cons, List.sum_cons, h a (List.mem_cons_self a t),
        ih fun b hb => h b (List.mem_cons_of_mem a hb), List.length_cons,
        Nat.succ_mul, Nat.add_comm]

lemma conn_cells_bounded (nx ny nz : Nat) (cell : List Nat)
    (hcell : cell ∈ create_large_volume_connectivity nx ny nz) :
    ∀ idx ∈ cell, idx < nx * ny * nz := by
  intro idx hidx
  simp only [create_large_volume_connectivity] at hcell
  rcases List.mem_flatMap.mp hcell with ⟨k, _, h1⟩
  rcases List.mem_flatMap.mp h1 with ⟨j, _, h2⟩
  rcases List.mem_filterMap.mp h2 with ⟨i, _, heq⟩
  by_cases hg : (hexIndices nx ny (strideOf nx ny nz) i j k).foldl max 0
      < nx * ny * nz
  · rw [if_pos hg, Option.some.injEq] at heq
    subst heq
    exact lt_of_le_of_lt (le_foldl_max_of_mem _ 0 idx hidx) hg
  · rw [if_neg hg] at heq
    exact absurd heq (by simp)

/-- C8: for the 100×100×100 synthetic volume the decimation stride is
`max(1, 100 // 20) = 5` and exactly `19³ = 6859` hexahedral cells are
emitted; moreover, for every volume size, each of the 8 corner indices of
every emitted hexahedron is strictly below the point count `nx*ny*nz` (the
source's guard drops any block that would overflow). -/
theorem C8_decimated_volume :
    strideOf 100 100 100 = 5 ∧
      (create_large_volume_connectivity 100 100 100).length = 6859 ∧
      ∀ nx ny nz cell, cell ∈ create_large_volume_connectivity nx ny nz →
        ∀ idx ∈ cell, idx < nx * ny * nz := by
  refine ⟨rfl, ?_, fun nx ny nz cell hc => conn_cells_bounded nx ny nz cell hc⟩
  have hguard : ∀ k ∈ strided 95 5, ∀ j ∈ strided 95 5, ∀ i ∈ strided 95 5,
      (hexIndices 100 100 5 i j k).foldl max 0 < 1000000 := by decide
  have hK : (strided 95 5).length = 19 := by decide
  show ((strided 95 5).flatMap fun k =>
    (strided 95 5).flatMap fun j =>
      (strided 95 5).filterMap fun i =>
        if (hexIndices 100 100 5 i j k).foldl max 0 < 1000000 then
          some (hexIndices 100 100 5 i j k)
        else none).length = 6859
  have hinner : ∀ k ∈ strided 95 5, ∀ j ∈ strided 95 5,
      ((strided 95 5).filterMap fun i =>
        if (hexIndices 100 100 5 i j k).foldl max 0 < 1000000 then
          some (hexIndices 100 100 5 i j k)
        else none).length = 19 := by
    intro k hk j hj
    have h := length_filterMap_of_forall (strided 95 5)
      (fun i => hexIndices 100 100 5 i j k)
      (fun i => (hexIndices 100 100 5 i j k).foldl max 0 < 1000000)
      (fun i hi => hguard k hk j hj i hi)
    rw [hK] at h
    exact h
  have hmid : ∀ k ∈ strided 95 5,
      ((strided 95 5).flatMap fun j =>
        (strided 95 5).filterMap fun i =>
          if (hexIndices 100 100 5 i j k).foldl max 0 < 1000000 then
            some (hexIndices 100 100 5 i j k)
          else none).length = 361 := by
    intro k hk
    rw [List.length_flatMap]
    simp only [Function.comp_def]
    rw [sum_map_const_on _ _ 19 fun j hj => hinner k hk j hj, hK]
  rw [List.length_flatMap]
  simp only [Function.comp_def]
  rw [sum_map_const_on _ _ 361 fun k hk => hmid k hk, hK]

/-- Witness for C8: the decimated 2×2×2 volume (stride 1) has the single
hexahedron `[0,1,3,2,4,5,7,6]`, and the theorem's bound applied to its
corner index 7 gives `7 < 8`. -/
theorem C8_witness :
    create_large_volume_connectivity 2 2 2 = [[0, 1, 3, 2, 4, 5, 7, 6]] ∧
      7 < 2 * 2 * 2 := by
  refine ⟨by decide, ?_⟩
  exact C8_decimated_volume.2.2 2 2 2 [0, 1, 3, 2, 4, 5, 7, 6]
    (by decide) 7 (by decide)

end VTKApp
